import Mathlib

/-!
Shallow embedding of the run/headless process-orchestration engine of
cargo-reaper (`src/command/run.rs`, with the resolver helpers from
`src/util.rs`).  OS interactions (spawning, polling, killing, waiting,
invoking the external window locator, reading the elapsed clock) are
modelled as explicit environments of oracles; the control flow of the
Rust functions is translated statement by statement.
-/

set_option autoImplicit false

namespace CargoReaper

/-- Result of an OS call that can fail with an `io::Error` (the error
payload is irrelevant to control flow, so it is `Unit`). -/
abbrev IOResult (α : Type) := Except Unit α

/-- The three-way stdio policy of `cli::Stdio` (`piped`, `inherit`, `null`). -/
inductive Stdio where
  | piped
  | inherit
  | null
deriving DecidableEq, Repr

/-- A description of an external command as configured by
`process::Command` in `run.rs`: program, positional arguments, the
`DISPLAY` environment export (if any), and the stdio policy of the three
standard streams. -/
structure Cmd where
  program : String
  args : List String
  envDisplay : Option String
  stdin : Stdio
  stdout : Stdio
  stderr : Stdio
deriving DecidableEq, Repr

/-- Observable process-management events performed by the engine. -/
inductive Ev where
  | spawn (c : Cmd) (ok : Bool)
  | killTarget
  | waitTarget
  | killServer
  | waitServer
  | toolExit (code : Nat)
deriving DecidableEq, Repr

/-- The expression `output().map(|o| o.status.success()).unwrap_or(false)` applied to the
result of launching the `xdotool` window locator: an OS-level launch
failure is collapsed to `false` (window not found). -/
def locatorFound : IOResult Bool → Bool
  | .ok b => b
  | .error _ => false

/-- The initializer `let mut exit_code: i32 = keep_going.then_some(1).unwrap_or_default();`
(run.rs line 147 / 255). -/
def initExitCode (keepGoing : Bool) : Nat :=
  if keepGoing then 1 else 0

/-- Result of one iteration of the headless supervision loop. -/
inductive StepResult where
  | invokeKill (code : Nat)
  | natural (status : Int)
  | pollErr
  | next (exitCode : Nat)
deriving DecidableEq, Repr

/-- The window-search phase of one loop iteration (run.rs lines 150-168):
if a window title is configured and `exit_code != 0` and the locator
reports success, then either record success (`keep_going`) or invoke the
Termination Coordinator with code 0.  Returns `.inl` when the iteration
ends the loop early, `.inr` with the updated exit code otherwise. -/
def windowPhase (windowTitle : Option String) (keepGoing : Bool)
    (loc : IOResult Bool) (exitCode : Nat) : StepResult ⊕ Nat :=
  match windowTitle with
  | none => .inr exitCode
  | some _ =>
    if (exitCode != 0) && locatorFound loc then
      if keepGoing then .inr 0 else .inl (.invokeKill 0)
    else .inr exitCode

/-- The `reaper.try_wait()` match of one loop iteration (run.rs lines
169-178): propagate a poll error; on natural exit, invoke the Coordinator
with the recorded code when a window title is configured, otherwise break
with the natural status; on timeout expiry invoke the Coordinator with
the recorded code; otherwise sleep one interval and continue. -/
def waitPhase (windowTitle : Option String) (tw : IOResult (Option Int))
    (elapsed : Bool) (exitCode : Nat) : StepResult :=
  match tw with
  | .error _ => .pollErr
  | .ok (some s) => if windowTitle.isSome then .invokeKill exitCode else .natural s
  | .ok none => if elapsed then .invokeKill exitCode else .next exitCode

/-- One full iteration of the headless supervision loop. -/
def stepHeadless (windowTitle : Option String) (keepGoing : Bool)
    (loc : IOResult Bool) (tw : IOResult (Option Int)) (elapsed : Bool)
    (exitCode : Nat) : StepResult :=
  match windowPhase windowTitle keepGoing loc exitCode with
  | .inl r => r
  | .inr ec => waitPhase windowTitle tw elapsed ec

/-- The oracle environment of the supervision loop: for each iteration
index, what the window-locator invocation would return, what
`reaper.try_wait()` returns, and whether `start.elapsed() >= timeout`
holds at that iteration. -/
structure PollEnv where
  locator : Nat → IOResult Bool
  tryWait : Nat → IOResult (Option Int)
  elapsedGE : Nat → Bool

/-- Result of running the supervision loop to completion (with fuel). -/
inductive LoopResult where
  | invokeKill (iter : Nat) (code : Nat)
  | natural (iter : Nat) (status : Int)
  | pollErr (iter : Nat)
  | fuelOut (exitCode : Nat)
deriving DecidableEq, Repr

/-- The headless supervision loop of `run_headless` /
`run_global_default_headless` (run.rs lines 149-179 / 257-287), iterated
from iteration `i` with current exit code `ec`, for at most `fuel`
iterations. -/
def runLoop (env : PollEnv) (windowTitle : Option String) (keepGoing : Bool) :
    Nat → Nat → Nat → LoopResult
  | _, ec, 0 => .fuelOut ec
  | i, ec, fuel + 1 =>
    match stepHeadless windowTitle keepGoing (env.locator i) (env.tryWait i)
        (env.elapsedGE i) ec with
    | .invokeKill c => .invokeKill i c
    | .natural s => .natural i s
    | .pollErr => .pollErr i
    | .next ec2 => runLoop env windowTitle keepGoing (i + 1) ec2 fuel

/-- The OS outcomes of the four teardown operations performed by
`kill_and_exit` (run.rs lines 355-366): kill and wait of the target,
kill and wait of the display-server. -/
structure TeardownEnv where
  killTargetR : IOResult Unit
  waitTargetR : IOResult Int
  killServerR : IOResult Unit
  waitServerR : IOResult Int

/-- Outcome of `kill_and_exit`: either the tool's own process was
terminated with the given code, or an OS error was surfaced first. -/
inductive TeardownResult where
  | exited (code : Nat)
  | failed
deriving DecidableEq, Repr

/-- The Termination Coordinator (run.rs lines 355-366):
`reaper.kill().and_then(|_| reaper.wait()).and_then(|_| xvfb.kill())
.and_then(|_| xvfb.wait())?; process::exit(exit_code)`.  Returns the
sequence of operations attempted and the outcome. -/
def kill_and_exit (td : TeardownEnv) (code : Nat) : List Ev × TeardownResult :=
  match td.killTargetR with
  | .error _ => ([.killTarget], .failed)
  | .ok _ =>
    match td.waitTargetR with
    | .error _ => ([.killTarget, .waitTarget], .failed)
    | .ok _ =>
      match td.killServerR with
      | .error _ => ([.killTarget, .waitTarget, .killServer], .failed)
      | .ok _ =>
        match td.waitServerR with
        | .error _ => ([.killTarget, .waitTarget, .killServer, .waitServer], .failed)
        | .ok _ =>
          ([.killTarget, .waitTarget, .killServer, .waitServer, .toolExit code],
           .exited code)

/-- Whether an OS call succeeded. -/
def okB {α : Type} : IOResult α → Bool
  | .ok _ => true
  | .error _ => false

/-- The spawn outcomes of the two headless processes. -/
structure SpawnEnv where
  xvfbOk : Bool
  reaperOk : Bool
deriving DecidableEq, Repr

/-- The virtual display-server command built in `run_reaper_headless`
(run.rs lines 323-334): `Xvfb <display> -screen 0 1024x768x24 -nolisten
tcp`, with `DISPLAY` exported and the caller's stdio policy. -/
def xvfbCmd (display : String) (si so se : Stdio) : Cmd where
  program := "Xvfb"
  args := [display, "-screen", "0", "1024x768x24", "-nolisten", "tcp"]
  envDisplay := some display
  stdin := si
  stdout := so
  stderr := se

/-- The target command built in `run_reaper_headless` (run.rs lines
338-350): the REAPER executable with the optional project argument,
`DISPLAY` exported, and the caller's stdio policy. -/
def reaperCmdHeadless (reaper : String) (project : Option String)
    (display : String) (si so se : Stdio) : Cmd where
  program := reaper
  args := project.toList
  envDisplay := some display
  stdin := si
  stdout := so
  stderr := se

/-- The target command built in `run_reaper` (run.rs lines 293-312): no
`DISPLAY` export. -/
def reaperCmdFg (reaper : String) (project : Option String)
    (si so se : Stdio) : Cmd where
  program := reaper
  args := project.toList
  envDisplay := none
  stdin := si
  stdout := so
  stderr := se

/-- Model of `run_reaper_headless` (run.rs lines 314-353): spawn the display
server first; if it fails, return the error; otherwise spawn the target;
if that fails, return the error (the display-server child is dropped —
the source performs no kill or wait on it on this path). -/
def run_reaper_headless (senv : SpawnEnv) (reaper : String)
    (project : Option String) (display : String) (si so se : Stdio) :
    List Ev × IOResult Unit :=
  if senv.xvfbOk then
    if senv.reaperOk then
      ([.spawn (xvfbCmd display si so se) true,
        .spawn (reaperCmdHeadless reaper project display si so se) true], .ok ())
    else
      ([.spawn (xvfbCmd display si so se) true,
        .spawn (reaperCmdHeadless reaper project display si so se) false], .error ())
  else
    ([.spawn (xvfbCmd display si so se) false], .error ())

/-- Model of `run_reaper` (run.rs lines 293-312): spawn the target in the
foreground. -/
def run_reaper (spawnOk : Bool) (reaper : String) (project : Option String)
    (si so se : Stdio) : List Ev × IOResult Unit :=
  if spawnOk then
    ([.spawn (reaperCmdFg reaper project si so se) true], .ok ())
  else
    ([.spawn (reaperCmdFg reaper project si so se) false], .error ())

/-- Overall outcome of a headless run with a timeout. -/
inductive RunResult where
  | spawnFailed
  | exited (code : Nat)
  | natural (status : Int)
  | failed
  | running
deriving DecidableEq, Repr

/-- The timeout branch of `run_headless` (run.rs lines 136-180): spawn
both processes (aborting on spawn failure before any polling), then run
the supervision loop; a Coordinator invocation either force-exits the
tool or surfaces a teardown error; a natural exit with no window title
breaks out of the loop (dropping the display-server child); a poll error
is surfaced. -/
def runHeadlessTimeout (senv : SpawnEnv) (env : PollEnv) (td : TeardownEnv)
    (reaper : String) (project : Option String) (display : String)
    (wt : Option String) (kg : Bool) (fuel : Nat) (si so se : Stdio) :
    List Ev × RunResult :=
  match run_reaper_headless senv reaper project display si so se with
  | (tr, .error _) => (tr, .spawnFailed)
  | (tr, .ok _) =>
    match runLoop env wt kg 0 (initExitCode kg) fuel with
    | .invokeKill _ c =>
      match kill_and_exit td c with
      | (tr2, .exited c2) => (tr ++ tr2, .exited c2)
      | (tr2, .failed) => (tr ++ tr2, .failed)
    | .natural _ s => (tr, .natural s)
    | .pollErr _ => (tr, .failed)
    | .fuelOut _ => (tr, .running)

/-- The no-timeout branch of `run` (run.rs lines 42-52):
`run_reaper(...)?.wait()`. -/
def runForegroundNoTimeout (spawnOk : Bool) (waitTargetR : IOResult Int)
    (reaper : String) (project : Option String) (si so se : Stdio) :
    List Ev × IOResult Int :=
  match run_reaper spawnOk reaper project si so se with
  | (tr, .error _) => (tr, .error ())
  | (tr, .ok _) =>
    match waitTargetR with
    | .error _ => (tr ++ [.waitTarget], .error ())
    | .ok s => (tr ++ [.waitTarget], .ok s)

/-- The no-timeout branch of `run_headless` (run.rs lines 124-135):
`run_reaper_headless(...).and_then(|(mut xvfb, mut reaper)|
reaper.wait().and_then(|_| xvfb.wait()))` — note the resulting status is
the display-server's. -/
def runHeadlessNoTimeout (senv : SpawnEnv) (waitTargetR waitServerR : IOResult Int)
    (reaper : String) (project : Option String) (display : String)
    (si so se : Stdio) : List Ev × IOResult Int :=
  match run_reaper_headless senv reaper project display si so se with
  | (tr, .error _) => (tr, .error ())
  | (tr, .ok _) =>
    match waitTargetR with
    | .error _ => (tr ++ [.waitTarget], .error ())
    | .ok _ =>
      match waitServerR with
      | .error _ => (tr ++ [.waitTarget, .waitServer], .error ())
      | .ok sx => (tr ++ [.waitTarget, .waitServer], .ok sx)

/-- The REAPER executable binary name (`util.rs` line 11). -/
def BINARY_NAME : String := "reaper"

/-- What the three candidate sources of the executable path would yield:
the explicit `--exec` override; `which::which(BINARY_NAME)` (the fixed
binary name looked up on the executable search path); and the platform
global-default locator method passed to `_locate_global_default`. -/
structure ResolveEnv where
  overrideBinary : Option String
  pathLookup : Option String
  globalDefault : Option String

/-- Outcome of executable resolution in `run` / `run_headless` (run.rs
lines 24-34 and 95-116): which candidate was selected, whether the
override warning was printed, or the not-found error message. -/
inductive Resolution where
  | overridden (p : String) (warned : Bool)
  | fromPath (p : String)
  | fromGlobalDefault (p : String)
  | notFound (msg : String)
deriving DecidableEq, Repr

/-- The error message of `_locate_global_default` (util.rs lines
189-192), verbatim. -/
def locateGlobalDefaultMsg : String :=
  "Unable to locate REAPER executable — Run `cargo reaper -h` for help, or override the default executable path with `--exec <PATH>`."

/-- Model of `_locate_global_default` (util.rs lines 185-193):
`run_global_locator_method().ok_or(io::Error::new(NotFound, ...))`. -/
def _locate_global_default (globalLocatorResult : Option String) :
    Except String String :=
  match globalLocatorResult with
  | some p => .ok p
  | none => .error locateGlobalDefaultMsg

/-- The executable-resolution chain of `run` / `run_headless` (run.rs
lines 24-34 / 95-116): `override_binary.inspect(warn).or_else(||
which::which(BINARY_NAME).ok()).map_or_else(run_global_default..., run...)`,
with `run_global_default` calling `locate_global_default()`. -/
def resolveExecutable (env : ResolveEnv) : Resolution :=
  match env.overrideBinary with
  | some p => .overridden p true
  | none =>
    match env.pathLookup with
    | some p => .fromPath p
    | none =>
      match _locate_global_default env.globalDefault with
      | .ok p => .fromGlobalDefault p
      | .error m => .notFound m

/-- The loop invariant of a keep-going run: the exit code is 0 exactly
when some earlier iteration's locator invocation succeeded, else 1. -/
def kgInv (env : PollEnv) (i ec : Nat) : Prop :=
  (ec = 0 ∧ ∃ j, j < i ∧ locatorFound (env.locator j) = true) ∨
  (ec = 1 ∧ ¬ ∃ j, j < i ∧ locatorFound (env.locator j) = true)

/-- Concrete keep-going environment: locator succeeds at iteration 1,
target exits naturally at iteration 3, timeout never elapses. -/
def envKeepGoingW : PollEnv where
  locator := fun j => .ok (j == 1)
  tryWait := fun j => if j == 3 then .ok (some 0) else .ok none
  elapsedGE := fun _ => false

/-- Concrete environment: the window locator would succeed from the very
first iteration, the target never exits, the timeout elapses at
iteration 5. -/
def envAlwaysFound : PollEnv where
  locator := fun _ => .ok true
  tryWait := fun _ => .ok none
  elapsedGE := fun i => decide (5 ≤ i)

/-- Concrete environment: the window locator never succeeds, the target
never exits, the timeout elapses at iteration 3. -/
def envNeverFound : PollEnv where
  locator := fun _ => .ok false
  tryWait := fun _ => .ok none
  elapsedGE := fun i => decide (3 ≤ i)

/-- With keep-going set, the window phase never ends the loop: finding
the window only records success by zeroing the exit code. -/
lemma stepHeadless_keep_going (t : String) (loc : IOResult Bool)
    (tw : IOResult (Option Int)) (el : Bool) (ec : Nat) :
    stepHeadless (some t) true loc tw el ec =
      waitPhase (some t) tw el (if (ec != 0) && locatorFound loc then 0 else ec) := by
  cases h : (ec != 0) && locatorFound loc <;>
    simp [stepHeadless, windowPhase, h]

/-- Restating the loop invariant at `i + 1` with a `≤ i` bound: the code
is 0 together with a locator success at some iteration `≤ i`, or it is 1
and the locator never succeeded at an iteration `≤ i`. -/
lemma kgInv_succ_code (env : PollEnv) (i ec : Nat) (h : kgInv env (i + 1) ec) :
    (ec = 0 ∧ ∃ j, j ≤ i ∧ locatorFound (env.locator j) = true) ∨
    (ec = 1 ∧ ¬ ∃ j, j ≤ i ∧ locatorFound (env.locator j) = true) := by
  rcases h with ⟨h0, j, hj, hL⟩ | ⟨h1, hn⟩
  · exact .inl ⟨h0, j, Nat.lt_succ_iff.mp hj, hL⟩
  · exact .inr ⟨h1, fun ⟨j, hj, hL⟩ => hn ⟨j, Nat.lt_succ_iff.mpr hj, hL⟩⟩

/-- The loop invariant of a keep-going run is preserved by the window
phase of iteration `i`. -/
lemma kgInv_preserved (env : PollEnv) (i ec : Nat) (hinv : kgInv env i ec) :
    kgInv env (i + 1) (if (ec != 0) && locatorFound (env.locator i) then 0 else ec) := by
  rcases hinv with ⟨hec, j, hj, hLj⟩ | ⟨hec, hnone⟩
  · subst hec
    simp only [bne_self_eq_false, Bool.false_and, if_false]
    exact .inl ⟨rfl, j, Nat.lt_succ_of_lt hj, hLj⟩
  · subst hec
    cases hL : locatorFound (env.locator i) with
    | true =>
      simp only [hL, Bool.and_true]
      exact .inl ⟨by simp, i, Nat.lt_succ_self i, hL⟩
    | false =>
      simp only [hL, Bool.and_false, if_false]
      refine .inr ⟨rfl, ?_⟩
      intro ⟨j, hj, hLj⟩
      rcases Nat.lt_succ_iff_lt_or_eq.mp hj with hlt | heq
      · exact hnone ⟨j, hlt, hLj⟩
      · subst heq; exact absurd hLj (by simp [hL])

/-- In a keep-going run starting from a state satisfying the loop
invariant, the loop can end in a Coordinator invocation only at an
iteration where the target exited naturally or the timeout elapsed, and
the code passed is 0 together with a locator success at some iteration
up to that point, or 1 with the locator never having succeeded. -/
lemma runLoop_kg_inv (env : PollEnv) (t : String) :
    ∀ (fuel i ec i' c : Nat), kgInv env i ec →
      runLoop env (some t) true i ec fuel = .invokeKill i' c →
      ((∃ s, env.tryWait i' = .ok (some s)) ∨ env.elapsedGE i' = true) ∧
      ((c = 0 ∧ ∃ j, j ≤ i' ∧ locatorFound (env.locator j) = true) ∨
       (c = 1 ∧ ¬ ∃ j, j ≤ i' ∧ locatorFound (env.locator j) = true)) := by
  intro fuel
  induction fuel with
  | zero =>
    intro i ec i' c _ h
    simp [runLoop] at h
  | succ n ih =>
    intro i ec i' c hinv h
    rw [runLoop, stepHeadless_keep_going] at h
    cases htw : env.tryWait i with
    | error e =>
      simp [waitPhase, htw] at h
    | ok os =>
      cases os with
      | some s =>
        simp only [waitPhase, htw, Option.isSome_some, if_true] at h
        cases h
        exact ⟨.inl ⟨s, htw⟩, kgInv_succ_code env i _ (kgInv_preserved env i ec hinv)⟩
      | none =>
        cases hel : env.elapsedGE i with
        | true =>
          simp only [waitPhase, htw, hel, if_true] at h
          cases h
          exact ⟨.inr hel, kgInv_succ_code env i _ (kgInv_preserved env i ec hinv)⟩
        | false =>
          simp only [waitPhase, htw, hel, if_false] at h
          exact ih (i + 1) _ i' c (kgInv_preserved env i ec hinv) h

/-- Claim C3: in a headless keep-going run with a window title and a
timeout, detecting the window never ends the loop (the step yields
`next`); the run is ended by a Coordinator invocation only at an
iteration where the target exited naturally or the timeout elapsed; and
the forced exit code is 0 if the window locator succeeded at some
iteration up to that moment, and 1 if it never succeeded. -/
theorem c3_keep_going_behavior (env : PollEnv) (t : String) (fuel i c : Nat)
    (h : runLoop env (some t) true 0 (initExitCode true) fuel = .invokeKill i c) :
    (∀ (ec : Nat) (loc : IOResult Bool), ∃ ec2,
      stepHeadless (some t) true loc (.ok none) false ec = .next ec2) ∧
    ((∃ s, env.tryWait i = .ok (some s)) ∨ env.elapsedGE i = true) ∧
    ((c = 0 ∧ ∃ j, j ≤ i ∧ locatorFound (env.locator j) = true) ∨
     (c = 1 ∧ ¬ ∃ j, j ≤ i ∧ locatorFound (env.locator j) = true)) := by
  constructor
  · intro ec loc
    refine ⟨if (ec != 0) && locatorFound loc then 0 else ec, ?_⟩
    rw [stepHeadless_keep_going]; rfl
  · refine runLoop_kg_inv env t fuel 0 (initExitCode true) i c ?_ h
    exact .inr ⟨rfl, fun ⟨j, hj, _⟩ => absurd hj (Nat.not_lt_zero j)⟩

/-- Witness for C3 at a concrete keep-going run: the window is found at
iteration 1, the target exits naturally at iteration 3, and the
Coordinator is invoked with code 0. -/
theorem c3_keep_going_behavior_witness :
    (∀ (ec : Nat) (loc : IOResult Bool), ∃ ec2,
      stepHeadless (some "Main") true loc (.ok none) false ec = .next ec2) ∧
    ((∃ s, envKeepGoingW.tryWait 3 = .ok (some s)) ∨ envKeepGoingW.elapsedGE 3 = true) ∧
    (((0 : Nat) = 0 ∧ ∃ j, j ≤ 3 ∧ locatorFound (envKeepGoingW.locator j) = true) ∨
     ((0 : Nat) = 1 ∧ ¬ ∃ j, j ≤ 3 ∧ locatorFound (envKeepGoingW.locator j) = true)) :=
  c3_keep_going_behavior envKeepGoingW "Main" 10 3 0 rfl

/-- Claim C1: with a window title, keep-going = false and a timeout, the
code initializes `exit_code` to 0, so the locator guard `exit_code != 0`
is false from the first iteration: even though the locator would report
success at iteration 0, the loop never terminates early — it runs to the
timeout at iteration 5 and only then invokes the Termination Coordinator
(with code 0), instead of invoking it with code 0 at iteration 0 as the
claim requires. -/
theorem c1_non_keep_going_skips_locator :
    runLoop envAlwaysFound (some "Main") false 0 (initExitCode false) 10 =
      .invokeKill 5 0 ∧
    (LoopResult.invokeKill 5 0 : LoopResult) ≠ .invokeKill 0 0 := by
  constructor
  · rfl
  · decide

/-- Claim C2: with a window title, keep-going = false and a timeout, if
the window is never found then on timeout expiry the code passed to the
Termination Coordinator is 0 (the initial value of `exit_code` for
non-keep-going runs), not 1 as the claim requires. -/
theorem c2_timeout_never_found_code_zero :
    runLoop envNeverFound (some "Main") false 0 (initExitCode false) 10 =
      .invokeKill 3 0 ∧
    (0 : Nat) ≠ 1 := by
  constructor
  · rfl
  · decide

/-- The function `kill_and_exit` only reports a forced exit with the very code it was
given. -/
lemma kill_and_exit_exited (td : TeardownEnv) (c c2 : Nat)
    (h : (kill_and_exit td c).2 = .exited c2) : c2 = c := by
  obtain ⟨k1, w1, k2, w2⟩ := td
  cases k1 <;> cases w1 <;> cases k2 <;> cases w2 <;>
    (simp [kill_and_exit] at h; try omega)

/-- Claim C6: every invocation of the Termination Coordinator performs
exactly, in order: kill target, wait target, kill display-server, wait
display-server, terminate the tool with the given code; it fails exactly
when one of the four OS operations fails, and then the forced tool exit
does not occur. -/
theorem c6_kill_and_exit_order (td : TeardownEnv) (code : Nat) :
    (okB td.killTargetR = true → okB td.waitTargetR = true →
      okB td.killServerR = true → okB td.waitServerR = true →
      kill_and_exit td code =
        ([.killTarget, .waitTarget, .killServer, .waitServer, .toolExit code],
         .exited code)) ∧
    ((kill_and_exit td code).2 = .failed ↔
      ¬(okB td.killTargetR = true ∧ okB td.waitTargetR = true ∧
        okB td.killServerR = true ∧ okB td.waitServerR = true)) ∧
    ((kill_and_exit td code).2 = .failed →
      Ev.toolExit code ∉ (kill_and_exit td code).1) := by
  obtain ⟨k1, w1, k2, w2⟩ := td
  cases k1 <;> cases w1 <;> cases k2 <;> cases w2 <;>
    simp [kill_and_exit, okB]

/-- Witness for C6: with all four teardown operations succeeding, the
Coordinator performs the five steps in order and exits with code 7. -/
theorem c6_kill_and_exit_order_witness :
    kill_and_exit ⟨.ok (), .ok 0, .ok (), .ok 0⟩ 7 =
      ([.killTarget, .waitTarget, .killServer, .waitServer, .toolExit 7],
       .exited 7) :=
  (c6_kill_and_exit_order ⟨.ok (), .ok 0, .ok (), .ok 0⟩ 7).1 rfl rfl rfl rfl

/-- Claim C10: an OS-level failure to launch the window-locator command
is treated exactly as "window not found" (the step is identical to one
where the locator ran and found nothing), the loop simply continues when
nothing else ends it, and only a poll failure — never a locator launch
failure — is fatal. -/
theorem c10_locator_failure_not_fatal (wt : Option String) (kg : Bool)
    (tw : IOResult (Option Int)) (el : Bool) (ec : Nat) :
    (stepHeadless wt kg (.error ()) tw el ec =
      stepHeadless wt kg (.ok false) tw el ec) ∧
    (∀ t : String, wt = some t → tw = .ok none → el = false →
      stepHeadless wt kg (.error ()) tw el ec = .next ec) ∧
    (stepHeadless wt kg (.error ()) (.error ()) el ec = .pollErr) := by
  refine ⟨?_, ?_, ?_⟩
  · cases wt <;> simp [stepHeadless, windowPhase, locatorFound]
  · intro t hwt htw hel
    subst hwt; subst htw; subst hel
    simp [stepHeadless, windowPhase, waitPhase, locatorFound]
  · cases wt <;> simp [stepHeadless, windowPhase, waitPhase, locatorFound]

/-- Witness for C10 at a concrete iteration state: a locator launch
failure behaves like "not found" and the loop continues. -/
theorem c10_locator_failure_not_fatal_witness :
    (stepHeadless (some "Main") true (.error ()) (.ok none) false 1 =
      stepHeadless (some "Main") true (.ok false) (.ok none) false 1) ∧
    stepHeadless (some "Main") true (.error ()) (.ok none) false 1 = .next 1 := by
  have h := c10_locator_failure_not_fatal (some "Main") true (.ok none) false 1
  exact ⟨h.1, h.2.1 "Main" rfl rfl rfl⟩

/-- Claim C9: in a headless spawn the display-server is started first
with the fixed framebuffer geometry and bound to the given display, then
the target with the same display exported into its environment, and both
receive the identical stdio policy. -/
theorem c9_headless_spawn_order (reaper : String) (project : Option String)
    (display : String) (si so se : Stdio) :
    (run_reaper_headless ⟨true, true⟩ reaper project display si so se).1 =
      [.spawn (xvfbCmd display si so se) true,
       .spawn (reaperCmdHeadless reaper project display si so se) true] ∧
    (xvfbCmd display si so se).program = "Xvfb" ∧
    (xvfbCmd display si so se).args =
      [display, "-screen", "0", "1024x768x24", "-nolisten", "tcp"] ∧
    (xvfbCmd display si so se).envDisplay = some display ∧
    (reaperCmdHeadless reaper project display si so se).envDisplay =
      (xvfbCmd display si so se).envDisplay ∧
    (reaperCmdHeadless reaper project display si so se).stdin =
      (xvfbCmd display si so se).stdin ∧
    (reaperCmdHeadless reaper project display si so se).stdout =
      (xvfbCmd display si so se).stdout ∧
    (reaperCmdHeadless reaper project display si so se).stderr =
      (xvfbCmd display si so se).stderr :=
  ⟨rfl, rfl, rfl, rfl, rfl, rfl, rfl, rfl⟩

/-- Counterexample to claim C5: when the display-server spawns but the
target spawn fails, the source returns the error having performed no kill
and no wait on the display-server — it is not torn down, contrary to the
claim. -/
theorem c5_counterexample :
    run_reaper_headless ⟨true, false⟩ "reaper" none ":99" .null .inherit .inherit =
      ([.spawn (xvfbCmd ":99" .null .inherit .inherit) true,
        .spawn (reaperCmdHeadless "reaper" none ":99" .null .inherit .inherit) false],
       .error ()) ∧
    Ev.killServer ∉
      (run_reaper_headless ⟨true, false⟩ "reaper" none ":99" .null .inherit .inherit).1 ∧
    Ev.waitServer ∉
      (run_reaper_headless ⟨true, false⟩ "reaper" none ":99" .null .inherit .inherit).1 := by
  exact ⟨rfl, by decide, by decide⟩

/-- Claim C5 (amended): when the display-server spawned but the target
spawn fails, the spawn error is surfaced before any polling begins (the
run result is `spawnFailed` regardless of the polling oracles), but the
display-server is left running: no kill, wait or forced exit is performed
on this path. -/
theorem c5_spawn_failure_behavior (senv : SpawnEnv) (env : PollEnv)
    (td : TeardownEnv) (reaper : String) (project : Option String)
    (display : String) (wt : Option String) (kg : Bool) (fuel : Nat)
    (si so se : Stdio) (hx : senv.xvfbOk = true) (hr : senv.reaperOk = false) :
    runHeadlessTimeout senv env td reaper project display wt kg fuel si so se =
      ([.spawn (xvfbCmd display si so se) true,
        .spawn (reaperCmdHeadless reaper project display si so se) false],
       .spawnFailed) ∧
    Ev.killServer ∉
      (runHeadlessTimeout senv env td reaper project display wt kg fuel si so se).1 ∧
    Ev.waitServer ∉
      (runHeadlessTimeout senv env td reaper project display wt kg fuel si so se).1 ∧
    (∀ c, Ev.toolExit c ∉
      (runHeadlessTimeout senv env td reaper project display wt kg fuel si so se).1) := by
  obtain ⟨x, r⟩ := senv
  simp only at hx hr
  subst hx; subst hr
  simp [runHeadlessTimeout, run_reaper_headless]

/-- Witness for C5 at concrete inputs. -/
theorem c5_spawn_failure_behavior_witness :
    runHeadlessTimeout ⟨true, false⟩ envNeverFound ⟨.ok (), .ok 0, .ok (), .ok 0⟩
        "reaper" none ":99" none false 3 .null .inherit .inherit =
      ([.spawn (xvfbCmd ":99" .null .inherit .inherit) true,
        .spawn (reaperCmdHeadless "reaper" none ":99" .null .inherit .inherit) false],
       .spawnFailed) :=
  (c5_spawn_failure_behavior ⟨true, false⟩ envNeverFound ⟨.ok (), .ok 0, .ok (), .ok 0⟩
    "reaper" none ":99" none false 3 .null .inherit .inherit rfl rfl).1

/-- Counterexample to claim C7: in the headless no-timeout path the
supervised target exits with status 7 but the value returned is the
display-server's status 0 (`reaper.wait().and_then(|_| xvfb.wait())`),
not the target's natural status. -/
theorem c7_counterexample :
    (runHeadlessNoTimeout ⟨true, true⟩ (.ok 7) (.ok 0)
      "reaper" none ":99" .null .inherit .inherit).2 = .ok 0 ∧
    (Except.ok 0 : IOResult Int) ≠ .ok 7 := by
  exact ⟨rfl, by simp⟩

/-- Claim C7 (amended): with no timeout the supervisor never invokes
forced termination (no kill and no forced tool exit on any path); it
waits for the target first and then, if headless, for the display-server;
the foreground path returns the target's natural status unmodified, while
the headless path returns the display-server's exit status (the target's
status is discarded). -/
theorem c7_no_timeout_behavior (spawnOk : Bool) (senv : SpawnEnv)
    (wtR wsR : IOResult Int) (reaper : String) (project : Option String)
    (display : String) (si so se : Stdio) :
    Ev.killTarget ∉ (runForegroundNoTimeout spawnOk wtR reaper project si so se).1 ∧
    (∀ c, Ev.toolExit c ∉ (runForegroundNoTimeout spawnOk wtR reaper project si so se).1) ∧
    Ev.killTarget ∉ (runHeadlessNoTimeout senv wtR wsR reaper project display si so se).1 ∧
    Ev.killServer ∉ (runHeadlessNoTimeout senv wtR wsR reaper project display si so se).1 ∧
    (∀ c, Ev.toolExit c ∉ (runHeadlessNoTimeout senv wtR wsR reaper project display si so se).1) ∧
    (∀ s : Int, spawnOk = true → wtR = .ok s →
      (runForegroundNoTimeout spawnOk wtR reaper project si so se).2 = .ok s) ∧
    (∀ st sx : Int, senv = ⟨true, true⟩ → wtR = .ok st → wsR = .ok sx →
      (runHeadlessNoTimeout senv wtR wsR reaper project display si so se).1 =
        [.spawn (xvfbCmd display si so se) true,
         .spawn (reaperCmdHeadless reaper project display si so se) true,
         .waitTarget, .waitServer] ∧
      (runHeadlessNoTimeout senv wtR wsR reaper project display si so se).2 = .ok sx) := by
  obtain ⟨x, r⟩ := senv
  refine ⟨?_, ?_, ?_, ?_, ?_, ?_, ?_⟩
  · cases spawnOk <;> cases wtR <;>
      simp [runForegroundNoTimeout, run_reaper]
  · intro c
    cases spawnOk <;> cases wtR <;>
      simp [runForegroundNoTimeout, run_reaper]
  · cases x <;> cases r <;> cases wtR <;> cases wsR <;>
      simp [runHeadlessNoTimeout, run_reaper_headless]
  · cases x <;> cases r <;> cases wtR <;> cases wsR <;>
      simp [runHeadlessNoTimeout, run_reaper_headless]
  · intro c
    cases x <;> cases r <;> cases wtR <;> cases wsR <;>
      simp [runHeadlessNoTimeout, run_reaper_headless]
  · intro s hsp hw
    subst hsp; subst hw
    simp [runForegroundNoTimeout, run_reaper]
  · intro st sx hse hw hs
    cases hse
    subst hw; subst hs
    constructor <;> rfl

/-- Witness for C7 (amended) at a concrete run: the headless no-timeout
path waits target then display-server and returns the display-server's
status. -/
theorem c7_no_timeout_behavior_witness :
    (runForegroundNoTimeout true (.ok 7) "reaper" none .null .inherit .inherit).2 =
      .ok 7 ∧
    (runHeadlessNoTimeout ⟨true, true⟩ (.ok 7) (.ok 0)
      "reaper" none ":99" .null .inherit .inherit).2 = .ok 0 := by
  have h := c7_no_timeout_behavior true ⟨true, true⟩ (.ok 7) (.ok 0)
    "reaper" none ":99" .null .inherit .inherit
  exact ⟨h.2.2.2.2.2.1 7 rfl rfl, (h.2.2.2.2.2.2 7 0 rfl rfl rfl).2⟩

/-- Claim C8: executable resolution tries the explicit override first
(with a diagnostic warning), then the fixed binary name on the search
path, then the platform global default; when none resolves the result is
a not-found error whose message carries the `--exec` override flag as a
remediation hint. -/
theorem c8_resolution_priority (env : ResolveEnv) :
    (∀ p, env.overrideBinary = some p → resolveExecutable env = .overridden p true) ∧
    (∀ p, env.overrideBinary = none → env.pathLookup = some p →
      resolveExecutable env = .fromPath p) ∧
    (∀ p, env.overrideBinary = none → env.pathLookup = none →
      env.globalDefault = some p → resolveExecutable env = .fromGlobalDefault p) ∧
    (env.overrideBinary = none → env.pathLookup = none → env.globalDefault = none →
      resolveExecutable env = .notFound locateGlobalDefaultMsg) ∧
    (∃ pre post, locateGlobalDefaultMsg = pre ++ "--exec" ++ post) := by
  obtain ⟨ov, pl, gd⟩ := env
  refine ⟨?_, ?_, ?_, ?_, ?_⟩
  · intro p hp; simp only at hp; subst hp; rfl
  · intro p ho hp; simp only at ho hp; subst ho; subst hp; rfl
  · intro p ho hp hg; simp only at ho hp hg; subst ho; subst hp; subst hg; rfl
  · intro ho hp hg; simp only at ho hp hg; subst ho; subst hp; subst hg; rfl
  · exact ⟨"Unable to locate REAPER executable — Run `cargo reaper -h` for help, or override the default executable path with `",
      " <PATH>`.", rfl⟩

/-- Witness for C8: with no override, no search-path hit and no global
default, resolution fails with the message carrying the override flag. -/
theorem c8_resolution_priority_witness :
    resolveExecutable ⟨none, none, none⟩ = .notFound locateGlobalDefaultMsg ∧
    resolveExecutable ⟨some "/opt/reaper", none, none⟩ =
      .overridden "/opt/reaper" true ∧
    (∃ pre post, locateGlobalDefaultMsg = pre ++ "--exec" ++ post) := by
  have h1 := c8_resolution_priority ⟨none, none, none⟩
  have h2 := c8_resolution_priority ⟨some "/opt/reaper", none, none⟩
  exact ⟨h1.2.2.2.1 rfl rfl rfl, h2.1 "/opt/reaper" rfl, h1.2.2.2.2⟩

end CargoReaper
